import Mathlib

/-!
Verification of the drift-gym specification against a shallow embedding of
the repository's core simulator.

The repository's `src/` tree only contains glue (package setup, the
installation check script, usage examples and the simulator package's
re-export list); the simulator modules themselves
(`drift_gym/simulator/vehicle.py`, `drift_gym/simulator/sensors.py`,
`drift_gym/simulator/environment.py`, `drift_gym/envs/drift_car_env_advanced.py`)
are not present.  Those components are therefore modelled from the
specification (sections 2-8 of spec.md), and the installation check script
`test_installation.py` is embedded directly from its source.

Real-number quantities are modelled over the rationals; the trigonometric
functions used by the planar dynamics and the full-circle angle period are
abstracted as parameters of `DynParams` (none of the verified properties
depend on their values, only on the wrapping arithmetic itself).
-/

namespace DriftGym

/-- Clamp a rational to the closed interval from lo to hi. -/
def clampQ (lo hi x : ℚ) : ℚ := max lo (min hi x)

/-- Modelled from the spec: canonical wrapping of a heading angle into one
fixed interval of length `p` (the full-circle period, 2*pi in the missing
`drift_gym` dynamics code), centred at zero. -/
def wrapAngle (p θ : ℚ) : ℚ := θ - p * ((Int.floor ((θ + p / 2) / p) : ℤ) : ℚ)

/-- The canonical wrap range for period `p`: one fixed half-open interval of
length `p` centred at zero. -/
def HeadingCanonical (p θ : ℚ) : Prop := -(p / 2) ≤ θ ∧ θ < p / 2

instance (p θ : ℚ) : Decidable (HeadingCanonical p θ) := by
  unfold HeadingCanonical
  infer_instance

/-- Modelled from the spec: the per-instance seeded random source owned by an
environment (spec section 5); a deterministic congruential state. -/
structure Rng where
  state : Nat
deriving DecidableEq, Repr

/-- Advance the random source one draw. -/
def Rng.next (r : Rng) : Nat × Rng :=
  let s := (6364136223846793005 * r.state + 1442695040888963407) % (2 ^ 64)
  (s, ⟨s⟩)

/-- Modelled from the spec: one pseudo-random additive noise sample with the
given standard-deviation scale, drawn from the seeded source. -/
def gaussSample (std : ℚ) (r : Rng) : ℚ × Rng :=
  let s := Rng.next r
  (std * (((s.1 % 2001 : Nat) : ℚ) - 1000) / 1000, s.2)

/-- A Python floating-point input value: finite, or one of the non-finite
values (nan, +inf, -inf).  Used to model the finiteness check of
`DynamicsIntegrator.reset`. -/
inductive PyFloat where
  | fin (q : ℚ)
  | nan
  | inf
  | ninf
deriving DecidableEq, Repr

/-- Whether a Python float input is finite. -/
def PyFloat.isFinite : PyFloat → Bool
  | .fin _ => true
  | _ => false

/-- The error taxonomy of spec section 7. -/
inductive SimError where
  | invalidState
  | invalidAction
  | invalidTransition
deriving DecidableEq, Repr

/-- Modelled from the spec: the plain data holder for the vehicle's planar
pose and velocities (missing `drift_gym/simulator/vehicle.py`). -/
structure VehicleState where
  x : ℚ
  y : ℚ
  theta : ℚ
  velocity : ℚ
  angular_velocity : ℚ
deriving DecidableEq, Repr

/-- Modelled from the spec: the fixed parameters of the dynamics integrator.
`twoPi` is the full-circle wrap period and `cosF`/`sinF` abstract the
trigonometric functions of the missing dynamics code. -/
structure DynParams where
  dt : ℚ
  twoPi : ℚ
  maxVel : ℚ
  maxAngVel : ℚ
  slipCoeff : ℚ
  cosF : ℚ → ℚ
  sinF : ℚ → ℚ

/-- Modelled from the spec: one integration step of the kinematic bicycle
update with lateral slip (spec section 4.1), on already-clamped commands.
Position integrates from speed and heading, heading integrates from angular
velocity and is wrapped to the canonical range; the slip term contributes a
lateral velocity nonlinear in speed and commanded angular velocity. -/
def DynamicsIntegrator.stepCore (p : DynParams) (s : VehicleState) (v w : ℚ) :
    VehicleState :=
  let vLat := p.slipCoeff * w * v * v
  { x := s.x + (v * p.cosF s.theta - vLat * p.sinF s.theta) * p.dt
    y := s.y + (v * p.sinF s.theta + vLat * p.cosF s.theta) * p.dt
    theta := wrapAngle p.twoPi (s.theta + w * p.dt)
    velocity := v
    angular_velocity := w }

/-- Modelled from the spec: the public dynamics step; commands beyond the
configured maxima are clamped, not rejected (spec section 4.1). -/
def DynamicsIntegrator.step (p : DynParams) (s : VehicleState)
    (vCmd wCmd : ℚ) : VehicleState :=
  DynamicsIntegrator.stepCore p s
    (clampQ (-p.maxVel) p.maxVel vCmd)
    (clampQ (-p.maxAngVel) p.maxAngVel wCmd)

/-- Modelled from the spec: `DynamicsIntegrator.reset` sets the pose with
zero velocities and fails with `InvalidStateError` when any input is
non-finite (spec section 4.1). -/
def DynamicsIntegrator.reset (x y theta : PyFloat) :
    Except SimError VehicleState :=
  match x, y, theta with
  | .fin xq, .fin yq, .fin tq =>
      Except.ok { x := xq, y := yq, theta := tq, velocity := 0, angular_velocity := 0 }
  | _, _, _ => Except.error SimError.invalidState

/-- Modelled from the spec: the IMU sensor's angular-rate channel
(missing `drift_gym/simulator/sensors.py`).  When `noisy` is false the true
value is returned unmodified and the random source is untouched. -/
def IMUSensor.sense (noisy : Bool) (std : ℚ) (s : VehicleState) (r : Rng) :
    ℚ × Rng :=
  if noisy then
    let g := gaussSample std r
    (s.angular_velocity + g.1, g.2)
  else (s.angular_velocity, r)

/-- Modelled from the spec: the velocity sensor, measuring speed magnitude. -/
def VelocitySensor.sense (noisy : Bool) (std : ℚ) (s : VehicleState) (r : Rng) :
    ℚ × Rng :=
  if noisy then
    let g := gaussSample std r
    (abs s.velocity + g.1, g.2)
  else (abs s.velocity, r)

/-- Modelled from the spec: the odometry sensor, measuring the planar pose. -/
def OdometrySensor.sense (noisy : Bool) (std : ℚ) (s : VehicleState) (r : Rng) :
    (ℚ × ℚ × ℚ) × Rng :=
  if noisy then
    let gx := gaussSample std r
    let gy := gaussSample std gx.2
    let gt := gaussSample std gy.2
    ((s.x + gx.1, s.y + gy.1, s.theta + gt.1), gt.2)
  else ((s.x, s.y, s.theta), r)

/-- Modelled from the spec: the noise parameters of the Kalman-style state
estimator over velocity and angular velocity (missing estimator code):
process variances `qV`/`qW`, measurement variances `rV`/`rW` and the
initial variances used on reset. -/
structure EstParams where
  qV : ℚ
  rV : ℚ
  qW : ℚ
  rW : ℚ
  initVarV : ℚ
  initVarW : ℚ
deriving DecidableEq, Repr

/-- A fused measurement batch for the estimator: measured velocity and
angular rate. -/
structure Meas where
  zV : ℚ
  zW : ℚ
deriving DecidableEq, Repr

/-- Modelled from the spec: the filtered state estimate together with its
reported uncertainty, here carried as the variance of each channel (the
reported std-dev is its square root, so sign and monotonicity statements
about the variance transfer to the std-dev). -/
structure EstimateState where
  velocity : ℚ
  angular_velocity : ℚ
  varV : ℚ
  varW : ℚ
deriving DecidableEq, Repr

/-- Variance after the prediction step: process noise is added. -/
def kalmanPredictVar (q P : ℚ) : ℚ := P + q

/-- The Kalman gain for a scalar channel. -/
def kalmanGain (r P : ℚ) : ℚ := P / (P + r)

/-- Variance after the correction step: `(1 - K) * P`, written in closed
form `P * r / (P + r)`. -/
def kalmanCorrectVar (r P : ℚ) : ℚ := P * r / (P + r)

/-- Modelled from the spec: one estimator update (spec section 4.3).  The
prediction step takes the mean from the last control command (the dynamics
model tracks the clamped command) and inflates the variance by process
noise; when a measurement batch is present a correction step fuses it,
weighted by the configured measurement noise. -/
def StateEstimator.update (p : EstParams) (est : EstimateState)
    (cmdV cmdW : ℚ) (m : Option Meas) : EstimateState :=
  let pv := kalmanPredictVar p.qV est.varV
  let pw := kalmanPredictVar p.qW est.varW
  match m with
  | none => { velocity := cmdV, angular_velocity := cmdW, varV := pv, varW := pw }
  | some z =>
      let kv := kalmanGain p.rV pv
      let kw := kalmanGain p.rW pw
      { velocity := cmdV + kv * (z.zV - cmdV)
        angular_velocity := cmdW + kw * (z.zW - cmdW)
        varV := kalmanCorrectVar p.rV pv
        varW := kalmanCorrectVar p.rW pw }

/-- A whole sequence of estimator updates: each entry carries the control
command pair and an optional measurement batch. -/
def StateEstimator.run (p : EstParams) (est : EstimateState)
    (steps : List (ℚ × ℚ × Option Meas)) : EstimateState :=
  steps.foldl (fun e s => StateEstimator.update p e s.1 s.2.1 s.2.2) est

/-- The estimate the environment reports in perfect-sensor mode: exactly the
true state with zero uncertainty. -/
def perfectEstimate (v : VehicleState) : EstimateState :=
  { velocity := v.velocity, angular_velocity := v.angular_velocity,
    varV := 0, varW := 0 }

/-- Modelled from the spec: a static circular obstacle. -/
structure Obstacle where
  ox : ℚ
  oy : ℚ
  radius : ℚ
deriving DecidableEq, Repr

/-- Squared planar distance. -/
def distSq (x1 y1 x2 y2 : ℚ) : ℚ := (x1 - x2) * (x1 - x2) + (y1 - y2) * (y1 - y2)

/-- Modelled from the spec: the environment configuration fixed at
construction (spec section 6): dynamics and estimator parameters, sensor
noise scales, the scenario's start pose, goal, bounds and obstacles, the
sensor mode and the step budget. -/
structure EnvConfig where
  dyn : DynParams
  est : EstParams
  velStd : ℚ
  imuStd : ℚ
  startX : ℚ
  startY : ℚ
  startTheta : ℚ
  goalX : ℚ
  goalY : ℚ
  goalRadius : ℚ
  minX : ℚ
  maxX : ℚ
  minY : ℚ
  maxY : ℚ
  obstacles : List Obstacle
  useNoisySensors : Bool
  maxSteps : Nat

/-- Whether the vehicle collides with some obstacle. -/
def collided (obs : List Obstacle) (v : VehicleState) : Bool :=
  obs.any (fun o => decide (distSq v.x v.y o.ox o.oy ≤ o.radius * o.radius))

/-- Whether the vehicle left the rectangular workspace. -/
def outOfBounds (cfg : EnvConfig) (v : VehicleState) : Bool :=
  decide (v.x < cfg.minX) || decide (cfg.maxX < v.x) ||
  decide (v.y < cfg.minY) || decide (cfg.maxY < v.y)

/-- Whether the vehicle reached the goal disc. -/
def goalReached (cfg : EnvConfig) (v : VehicleState) : Bool :=
  decide (distSq v.x v.y cfg.goalX cfg.goalY ≤ cfg.goalRadius * cfg.goalRadius)

/-- Modelled from the spec: the terminal conditions — collision,
out-of-bounds, or goal reached (spec section 4.5). -/
def terminalCondition (cfg : EnvConfig) (v : VehicleState) : Bool :=
  collided cfg.obstacles v || outOfBounds cfg v || goalReached cfg v

/-- The episode state machine of spec section 4.5. -/
inductive Phase where
  | INIT
  | RUNNING
  | TERMINATED
  | TRUNCATED
deriving DecidableEq, Repr

/-- What one `step` call returns to the caller. -/
structure StepResult where
  obs : List ℚ
  reward : ℚ
  terminated : Bool
  truncated : Bool
deriving DecidableEq, Repr

/-- Modelled from the spec: the full state owned by one
`SimulationEnvironment` instance (missing
`drift_gym/simulator/environment.py`). -/
structure Env where
  config : EnvConfig
  phase : Phase
  vehicle : VehicleState
  estimate : EstimateState
  rng : Rng
  stepCount : Nat

/-- The fixed-layout observation vector: goal-relative position, estimated
velocity and angular velocity, and the two uncertainty features. -/
def mkObs (cfg : EnvConfig) (v : VehicleState) (e : EstimateState) : List ℚ :=
  [cfg.goalX - v.x, cfg.goalY - v.y, e.velocity, e.angular_velocity, e.varV, e.varW]

/-- A freshly constructed environment, before the first reset. -/
def Env.make (cfg : EnvConfig) : Env :=
  { config := cfg, phase := Phase.INIT
    vehicle := { x := 0, y := 0, theta := 0, velocity := 0, angular_velocity := 0 }
    estimate := { velocity := 0, angular_velocity := 0, varV := 0, varW := 0 }
    rng := ⟨0⟩, stepCount := 0 }

/-- Mixing of the user seed into the initial random-source state. -/
def mixSeed (seed : Nat) : Nat := (seed * 2654435761 + 2463534242) % (2 ^ 64)

/-- Modelled from the spec: `reset(seed)` reinitializes the vehicle at the
scenario start pose (heading wrapped to the canonical range), the estimator,
the seeded random source and the step counter, moves the machine to RUNNING
and returns the initial observation (spec section 4.5). -/
def Env.resetE (cfg : EnvConfig) (seed : Nat) : Env × List ℚ :=
  let v0 : VehicleState :=
    { x := cfg.startX, y := cfg.startY
      theta := wrapAngle cfg.dyn.twoPi cfg.startTheta
      velocity := 0, angular_velocity := 0 }
  let e0 : EstimateState :=
    if cfg.useNoisySensors then
      { velocity := 0, angular_velocity := 0
        varV := cfg.est.initVarV, varW := cfg.est.initVarW }
    else perfectEstimate v0
  ({ config := cfg, phase := Phase.RUNNING, vehicle := v0, estimate := e0
     rng := ⟨mixSeed seed⟩, stepCount := 0 },
   mkObs cfg v0 e0)

/-- The action components clamped to the declared action-space bounds. -/
def clampAction (cfg : EnvConfig) (a : ℚ × ℚ) : ℚ × ℚ :=
  (clampQ (-cfg.dyn.maxVel) cfg.dyn.maxVel a.1,
   clampQ (-cfg.dyn.maxAngVel) cfg.dyn.maxAngVel a.2)

/-- The resolved (clamped) command pair an environment derives from a raw
action. -/
def Env.cmds (env : Env) (a : ℚ × ℚ) : ℚ × ℚ := clampAction env.config a

/-- The vehicle state after integrating the resolved commands. -/
def Env.postVehicle (env : Env) (c : ℚ × ℚ) : VehicleState :=
  DynamicsIntegrator.stepCore env.config.dyn env.vehicle c.1 c.2

/-- The sensor measurement batch drawn in noisy mode, with the advanced
random source. -/
def Env.sensed (env : Env) (c : ℚ × ℚ) : Meas × Rng :=
  let zv := VelocitySensor.sense true env.config.velStd (Env.postVehicle env c) env.rng
  let zw := IMUSensor.sense true env.config.imuStd (Env.postVehicle env c) zv.2
  ({ zV := zv.1, zW := zw.1 }, zw.2)

/-- The estimate after one step: the estimator fuses the noisy measurements
in noisy mode, and the true state is reported exactly in perfect mode. -/
def Env.postEstimate (env : Env) (c : ℚ × ℚ) : EstimateState :=
  if env.config.useNoisySensors then
    StateEstimator.update env.config.est env.estimate c.1 c.2
      (some (Env.sensed env c).1)
  else perfectEstimate (Env.postVehicle env c)

/-- The random source after one step. -/
def Env.postRng (env : Env) (c : ℚ × ℚ) : Rng :=
  if env.config.useNoisySensors then (Env.sensed env c).2 else env.rng

/-- Whether the post-step state hits a terminal condition. -/
def Env.postTerminated (env : Env) (c : ℚ × ℚ) : Bool :=
  terminalCondition env.config (Env.postVehicle env c)

/-- Modelled from the spec: TRUNCATED exactly when no terminal condition
holds and the step counter exceeds the configured `max_steps`. -/
def Env.postTruncated (env : Env) (c : ℚ × ℚ) : Bool :=
  !Env.postTerminated env c && decide (env.config.maxSteps < env.stepCount + 1)

/-- The phase after one step of the episode state machine. -/
def Env.postPhase (env : Env) (c : ℚ × ℚ) : Phase :=
  if Env.postTerminated env c then Phase.TERMINATED
  else if Env.postTruncated env c then Phase.TRUNCATED
  else Phase.RUNNING

/-- The environment state after one successful step. -/
def Env.postEnv (env : Env) (c : ℚ × ℚ) : Env :=
  { env with
    vehicle := Env.postVehicle env c
    estimate := Env.postEstimate env c
    rng := Env.postRng env c
    stepCount := env.stepCount + 1
    phase := Env.postPhase env c }

/-- The progress reward: decrease of the squared distance to the goal. -/
def Env.stepReward (env : Env) (c : ℚ × ℚ) : ℚ :=
  distSq env.vehicle.x env.vehicle.y env.config.goalX env.config.goalY -
  distSq (Env.postVehicle env c).x (Env.postVehicle env c).y
    env.config.goalX env.config.goalY

/-- The result returned by one successful step. -/
def Env.stepRes (env : Env) (c : ℚ × ℚ) : StepResult :=
  { obs := mkObs env.config (Env.postVehicle env c) (Env.postEstimate env c)
    reward := Env.stepReward env c
    terminated := Env.postTerminated env c
    truncated := Env.postTruncated env c }

/-- One step on the already-resolved command pair; valid only in RUNNING. -/
def Env.stepWith (env : Env) (c : ℚ × ℚ) :
    Except SimError (Env × StepResult) :=
  if env.phase = Phase.RUNNING then
    Except.ok (Env.postEnv env c, Env.stepRes env c)
  else Except.error SimError.invalidTransition

/-- Modelled from the spec: `step(action)` — clamp the action, advance
dynamics, sensors and estimation, compute reward and termination
(spec sections 4.5 and 6); fails with `InvalidTransitionError` outside
RUNNING. -/
def Env.step (env : Env) (a : ℚ × ℚ) : Except SimError (Env × StepResult) :=
  Env.stepWith env (Env.cmds env a)

/-- The step call as seen through the caller-owned environment state: on
failure the owned state is returned unchanged alongside the error. -/
def Env.stepMut (env : Env) (a : ℚ × ℚ) : Env × Except SimError StepResult :=
  match Env.step env a with
  | Except.ok s => (s.1, Except.ok s.2)
  | Except.error e => (env, Except.error e)

/-- The environment state after a step call, failed calls leaving it
unchanged. -/
def Env.stepPlain (env : Env) (a : ℚ × ℚ) : Env := (Env.stepMut env a).1

/-- The environment state after a whole action sequence. -/
def Env.runActions (env : Env) (acts : List (ℚ × ℚ)) : Env :=
  acts.foldl Env.stepPlain env

/-- The full output trajectory of a whole action sequence: for each action,
either the step's observation/reward/termination record or the error. -/
def Env.outputs (env : Env) : List (ℚ × ℚ) → List (Except SimError StepResult)
  | [] => []
  | a :: rest =>
      let s := Env.stepMut env a
      s.2 :: Env.outputs s.1 rest

/-- A concrete dynamics parameter set used to instantiate the general
theorems.  The wrap period and the abstracted trigonometric functions are
arbitrary sample values. -/
def sampleDyn : DynParams :=
  { dt := 1, twoPi := 6, maxVel := 4, maxAngVel := 3, slipCoeff := 1 / 10
    cosF := fun _ => 1, sinF := fun _ => 0 }

/-- A concrete estimator parameter set. -/
def sampleEst : EstParams :=
  { qV := 1, rV := 1, qW := 1, rW := 1, initVarV := 1, initVarW := 1 }

/-- A concrete environment configuration. -/
def sampleCfg : EnvConfig :=
  { dyn := sampleDyn, est := sampleEst, velStd := 1, imuStd := 1
    startX := 0, startY := 0, startTheta := 0
    goalX := 10, goalY := 0, goalRadius := 1
    minX := -50, maxX := 50, minY := -50, maxY := 50
    obstacles := [], useNoisySensors := true, maxSteps := 100 }

/-- The sample configuration in perfect-sensor mode. -/
def perfectCfg : EnvConfig := { sampleCfg with useNoisySensors := false }

/-- A freshly reset sample environment. -/
def sampleEnv : Env := (Env.resetE sampleCfg 42).1

/-- A freshly reset perfect-sensor environment. -/
def perfectEnv : Env := (Env.resetE perfectCfg 7).1

/-- A concrete estimator state. -/
def estSample : EstimateState :=
  { velocity := 0, angular_velocity := 0, varV := 1, varW := 1 }

end DriftGym

namespace TestInstallation

/-- A Python exception value deriving from `Exception`, as raised inside the
try-blocks of `test_installation.py` (identified here by an opaque code;
process-level control flow such as `KeyboardInterrupt`/`SystemExit` is not
part of the call-level model). -/
structure PyExc where
  code : Nat
deriving DecidableEq, Repr

/-- The external outcomes `test_installation.py` reacts to: whether each of
the five guarded imports succeeds (each is wrapped in its own
`except ImportError` block), and the outcome of the try-block bodies of
`test_environment_creation` and `test_standalone_dynamics` (which either
run to completion or raise). -/
structure InstallWorld where
  numpyOk : Bool
  gymnasiumOk : Bool
  driftGymOk : Bool
  envsImportOk : Bool
  simulatorImportOk : Bool
  envCreationBody : Except PyExc Unit
  standaloneBody : Except PyExc Unit

/-- Embedding of `test_imports` (src/test_installation.py lines 9-48): each
failing import returns False immediately; True if all five succeed. -/
def test_imports (w : InstallWorld) : Bool :=
  if !w.numpyOk then false
  else if !w.gymnasiumOk then false
  else if !w.driftGymOk then false
  else if !w.envsImportOk then false
  else if !w.simulatorImportOk then false
  else true

/-- Embedding of `test_environment_creation` (lines 51-79): the body runs
under `except Exception`, so a raising body yields False rather than a
propagated exception. -/
def test_environment_creation (w : InstallWorld) : Bool :=
  match w.envCreationBody with
  | Except.ok _ => true
  | Except.error _ => false

/-- Embedding of `test_standalone_dynamics` (lines 82-104): same
`except Exception` structure as `test_environment_creation`. -/
def test_standalone_dynamics (w : InstallWorld) : Bool :=
  match w.standaloneBody with
  | Except.ok _ => true
  | Except.error _ => false

/-- Embedding of `main` (lines 107-136): all three tests are invoked in
order, `all_passed` is cleared by any failure, and the exit code is 0 when
all passed and 1 otherwise. -/
def main (w : InstallWorld) : Nat :=
  let allPassed := true
  let allPassed := if test_imports w then allPassed else false
  let allPassed := if test_environment_creation w then allPassed else false
  let allPassed := if test_standalone_dynamics w then allPassed else false
  if allPassed then 0 else 1

end TestInstallation

namespace DriftGym

theorem le_clampQ (lo hi x : ℚ) : lo ≤ clampQ lo hi x := le_max_left _ _

theorem clampQ_le (lo hi x : ℚ) (h : lo ≤ hi) : clampQ lo hi x ≤ hi :=
  max_le h (min_le_left _ _)

theorem clampQ_eq_self (lo hi x : ℚ) (h1 : lo ≤ x) (h2 : x ≤ hi) :
    clampQ lo hi x = x := by
  unfold clampQ
  rw [min_eq_right h2, max_eq_right h1]

theorem clampQ_idem (lo hi x : ℚ) (h : lo ≤ hi) :
    clampQ lo hi (clampQ lo hi x) = clampQ lo hi x :=
  clampQ_eq_self _ _ _ (le_clampQ _ _ _) (clampQ_le _ _ _ h)

theorem wrapAngle_bounds (p θ : ℚ) (hp : 0 < p) :
    HeadingCanonical p (wrapAngle p θ) := by
  have h1 : ((Int.floor ((θ + p / 2) / p) : ℤ) : ℚ) ≤ (θ + p / 2) / p :=
    Int.floor_le _
  have h2 : (θ + p / 2) / p < ((Int.floor ((θ + p / 2) / p) : ℤ) : ℚ) + 1 :=
    Int.lt_floor_add_one _
  rw [le_div_iff₀ hp] at h1
  rw [div_lt_iff₀ hp] at h2
  unfold HeadingCanonical wrapAngle
  constructor
  · nlinarith
  · nlinarith

theorem stepMut_eq (env : Env) (a : ℚ × ℚ) :
    Env.stepMut env a =
      if env.phase = Phase.RUNNING then
        (Env.postEnv env (Env.cmds env a),
         Except.ok (Env.stepRes env (Env.cmds env a)))
      else (env, Except.error SimError.invalidTransition) := by
  unfold Env.stepMut Env.step Env.stepWith
  by_cases h : env.phase = Phase.RUNNING
  · rw [if_pos h, if_pos h]
  · rw [if_neg h, if_neg h]

theorem stepPlain_eq (env : Env) (a : ℚ × ℚ) :
    Env.stepPlain env a =
      if env.phase = Phase.RUNNING then Env.postEnv env (Env.cmds env a)
      else env := by
  unfold Env.stepPlain
  rw [stepMut_eq]
  by_cases h : env.phase = Phase.RUNNING
  · rw [if_pos h, if_pos h]
  · rw [if_neg h, if_neg h]

theorem stepPlain_config (env : Env) (a : ℚ × ℚ) :
    (Env.stepPlain env a).config = env.config := by
  rw [stepPlain_eq]
  by_cases h : env.phase = Phase.RUNNING
  · rw [if_pos h]
    rfl
  · rw [if_neg h]

theorem stepPlain_heading (env : Env) (a : ℚ × ℚ)
    (hp : 0 < env.config.dyn.twoPi)
    (hc : HeadingCanonical env.config.dyn.twoPi env.vehicle.theta) :
    HeadingCanonical env.config.dyn.twoPi (Env.stepPlain env a).vehicle.theta := by
  rw [stepPlain_eq]
  by_cases h : env.phase = Phase.RUNNING
  · rw [if_pos h]
    exact wrapAngle_bounds _ _ hp
  · rw [if_neg h]
    exact hc

theorem runActions_config (env : Env) (acts : List (ℚ × ℚ)) :
    (Env.runActions env acts).config = env.config := by
  induction acts generalizing env with
  | nil => rfl
  | cons a rest ih =>
      show (Env.runActions (Env.stepPlain env a) rest).config = env.config
      rw [ih, stepPlain_config]

theorem runActions_heading (acts : List (ℚ × ℚ)) (env : Env)
    (hp : 0 < env.config.dyn.twoPi)
    (hc : HeadingCanonical env.config.dyn.twoPi env.vehicle.theta) :
    HeadingCanonical env.config.dyn.twoPi
      (Env.runActions env acts).vehicle.theta := by
  induction acts generalizing env with
  | nil => exact hc
  | cons a rest ih =>
      show HeadingCanonical env.config.dyn.twoPi
        (Env.runActions (Env.stepPlain env a) rest).vehicle.theta
      have hcfg := stepPlain_config env a
      have h1 := ih (Env.stepPlain env a)
        (by rw [hcfg]; exact hp)
        (by rw [hcfg]; exact stepPlain_heading env a hp hc)
      rw [hcfg] at h1
      exact h1

theorem kalmanCorrectVar_nonneg (r P : ℚ) (hr : 0 ≤ r) (hP : 0 ≤ P) :
    0 ≤ kalmanCorrectVar r P :=
  div_nonneg (mul_nonneg hP hr) (add_nonneg hP hr)

theorem kalmanCorrectVar_lt (r P : ℚ) (hr : 0 < r) (hP : 0 < P) :
    kalmanCorrectVar r P < P := by
  unfold kalmanCorrectVar
  rw [div_lt_iff₀ (by linarith)]
  nlinarith

theorem update_var_nonneg (p : EstParams) (est : EstimateState)
    (cV cW : ℚ) (m : Option Meas)
    (hq : 0 ≤ p.qV) (hqw : 0 ≤ p.qW) (hr : 0 ≤ p.rV) (hrw : 0 ≤ p.rW)
    (hv : 0 ≤ est.varV) (hw : 0 ≤ est.varW) :
    0 ≤ (StateEstimator.update p est cV cW m).varV ∧
    0 ≤ (StateEstimator.update p est cV cW m).varW := by
  cases m with
  | none =>
      constructor
      · show 0 ≤ kalmanPredictVar p.qV est.varV
        unfold kalmanPredictVar
        linarith
      · show 0 ≤ kalmanPredictVar p.qW est.varW
        unfold kalmanPredictVar
        linarith
  | some z =>
      constructor
      · show 0 ≤ kalmanCorrectVar p.rV (kalmanPredictVar p.qV est.varV)
        exact kalmanCorrectVar_nonneg _ _ hr
          (by unfold kalmanPredictVar; linarith)
      · show 0 ≤ kalmanCorrectVar p.rW (kalmanPredictVar p.qW est.varW)
        exact kalmanCorrectVar_nonneg _ _ hrw
          (by unfold kalmanPredictVar; linarith)

theorem run_var_nonneg (p : EstParams)
    (hq : 0 ≤ p.qV) (hqw : 0 ≤ p.qW) (hr : 0 ≤ p.rV) (hrw : 0 ≤ p.rW)
    (steps : List (ℚ × ℚ × Option Meas)) (est : EstimateState)
    (hv : 0 ≤ est.varV) (hw : 0 ≤ est.varW) :
    0 ≤ (StateEstimator.run p est steps).varV ∧
    0 ≤ (StateEstimator.run p est steps).varW := by
  induction steps generalizing est with
  | nil => exact ⟨hv, hw⟩
  | cons s rest ih =>
      have h := update_var_nonneg p est s.1 s.2.1 s.2.2 hq hqw hr hrw hv hw
      exact ih (StateEstimator.update p est s.1 s.2.1 s.2.2) h.1 h.2

end DriftGym

namespace DriftGym

/-- C1: for every valid seed and every fixed action sequence, two runs that
each reset with that seed and then apply the identical action sequence
produce identical sequences of observations, rewards, terminated flags and
truncated flags: the output trajectory is a function of the configuration,
the seed and the actions alone, with no hidden state. -/
theorem deterministic_replay (cfg : EnvConfig) (seed : Nat)
    (acts : List (ℚ × ℚ)) (e1 e2 : Env)
    (h1 : e1 = (Env.resetE cfg seed).1) (h2 : e2 = (Env.resetE cfg seed).1) :
    Env.outputs e1 acts = Env.outputs e2 acts := by
  rw [h1, h2]

/-- Witness for the determinism theorem at a concrete configuration, seed
and two-step action sequence. -/
theorem deterministic_replay_witness :
    Env.outputs sampleEnv [(1, 0), (2, 1)] =
      Env.outputs sampleEnv [(1, 0), (2, 1)] :=
  deterministic_replay sampleCfg 42 [(1, 0), (2, 1)] sampleEnv sampleEnv rfl rfl

/-- C2: in noisy mode the reported uncertainty is never negative for any
measurement sequence; each correction step strictly decreases the variance
relative to the predicted prior it corrects (so consecutive corrections
monotonically shrink the uncertainty gained from measurements), and each
prediction-only step (no new measurement) strictly increases it.  Stated on
the variance; the reported std-dev is its square root, and the square root
is nonneg and strictly monotone, so the claim transfers. -/
theorem estimator_uncertainty (p : EstParams) (est : EstimateState)
    (cV cW : ℚ) (z : Meas)
    (hq : 0 < p.qV) (hr : 0 < p.rV) (hqw : 0 < p.qW) (hrw : 0 < p.rW)
    (hv : 0 ≤ est.varV) (hw : 0 ≤ est.varW) :
    (∀ steps, 0 ≤ (StateEstimator.run p est steps).varV ∧
              0 ≤ (StateEstimator.run p est steps).varW)
    ∧ ((StateEstimator.update p est cV cW (some z)).varV <
         kalmanPredictVar p.qV est.varV
       ∧ (StateEstimator.update p est cV cW (some z)).varW <
         kalmanPredictVar p.qW est.varW)
    ∧ (est.varV < (StateEstimator.update p est cV cW none).varV
       ∧ est.varW < (StateEstimator.update p est cV cW none).varW) := by
  refine ⟨fun steps =>
      run_var_nonneg p hq.le hqw.le hr.le hrw.le steps est hv hw,
    ⟨?_, ?_⟩, ⟨?_, ?_⟩⟩
  · show kalmanCorrectVar p.rV (kalmanPredictVar p.qV est.varV) <
      kalmanPredictVar p.qV est.varV
    exact kalmanCorrectVar_lt _ _ hr (by unfold kalmanPredictVar; linarith)
  · show kalmanCorrectVar p.rW (kalmanPredictVar p.qW est.varW) <
      kalmanPredictVar p.qW est.varW
    exact kalmanCorrectVar_lt _ _ hrw (by unfold kalmanPredictVar; linarith)
  · show est.varV < kalmanPredictVar p.qV est.varV
    unfold kalmanPredictVar
    linarith
  · show est.varW < kalmanPredictVar p.qW est.varW
    unfold kalmanPredictVar
    linarith

/-- Witness for the uncertainty theorem at concrete estimator parameters and
state: a prediction-only step strictly inflates both variances. -/
theorem estimator_uncertainty_witness :
    estSample.varV < (StateEstimator.update sampleEst estSample 1 1 none).varV ∧
    estSample.varW < (StateEstimator.update sampleEst estSample 1 1 none).varW :=
  (estimator_uncertainty sampleEst estSample 1 1 { zV := 1, zW := 1 }
    (by norm_num [sampleEst]) (by norm_num [sampleEst])
    (by norm_num [sampleEst]) (by norm_num [sampleEst])
    (by norm_num [estSample]) (by norm_num [estSample])).2.2

/-- C3: when noise is disabled, every sensor's sense returns the true value
unmodified (leaving the random source untouched), every successful step of
a perfect-sensor environment reports an estimate equal to the true
post-step state with zero uncertainty, and reset does the same for the
initial state. -/
theorem perfect_mode_exact :
    (∀ (std : ℚ) (s : VehicleState) (r : Rng),
        IMUSensor.sense false std s r = (s.angular_velocity, r)
        ∧ VelocitySensor.sense false std s r = (abs s.velocity, r)
        ∧ OdometrySensor.sense false std s r = ((s.x, s.y, s.theta), r))
    ∧ (∀ (env : Env) (a : ℚ × ℚ) (e : Env) (res : StepResult),
        env.config.useNoisySensors = false →
        Env.step env a = Except.ok (e, res) →
        e.estimate = perfectEstimate e.vehicle
        ∧ e.estimate.varV = 0 ∧ e.estimate.varW = 0)
    ∧ (∀ (cfg : EnvConfig) (seed : Nat), cfg.useNoisySensors = false →
        (Env.resetE cfg seed).1.estimate =
          perfectEstimate (Env.resetE cfg seed).1.vehicle) := by
  refine ⟨fun std s r => ⟨rfl, rfl, rfl⟩, ?_, ?_⟩
  · intro env a e res hn hstep
    unfold Env.step Env.stepWith at hstep
    by_cases h : env.phase = Phase.RUNNING
    · rw [if_pos h, Except.ok.injEq, Prod.mk.injEq] at hstep
      obtain ⟨he, hres⟩ := hstep
      subst he
      show Env.postEstimate env (Env.cmds env a) =
          perfectEstimate (Env.postVehicle env (Env.cmds env a))
        ∧ (Env.postEstimate env (Env.cmds env a)).varV = 0
        ∧ (Env.postEstimate env (Env.cmds env a)).varW = 0
      unfold Env.postEstimate
      rw [hn]
      exact ⟨rfl, rfl, rfl⟩
    · rw [if_neg h] at hstep
      exact absurd hstep (by simp)
  · intro cfg seed hn
    show (if cfg.useNoisySensors then _ else _) = _
    rw [hn]
    rfl

/-- Witness for the perfect-sensor theorem: one concrete step of the
perfect-mode sample environment reports the exact post-step state. -/
theorem perfect_mode_exact_witness :
    (Env.postEnv perfectEnv (Env.cmds perfectEnv (1, 0))).estimate =
      perfectEstimate
        (Env.postEnv perfectEnv (Env.cmds perfectEnv (1, 0))).vehicle :=
  (perfect_mode_exact.2.1 perfectEnv (1, 0)
    (Env.postEnv perfectEnv (Env.cmds perfectEnv (1, 0)))
    (Env.stepRes perfectEnv (Env.cmds perfectEnv (1, 0))) rfl rfl).1

/-- C4: for every reachable vehicle state produced by any number of steps up
to the step budget, starting from any reset pose, the heading lies in the
canonical wrap range (the fixed interval of length `twoPi` centred at
zero). -/
theorem heading_canonical (cfg : EnvConfig) (seed : Nat)
    (acts : List (ℚ × ℚ))
    (hp : 0 < cfg.dyn.twoPi) (_hlen : acts.length ≤ cfg.maxSteps) :
    HeadingCanonical cfg.dyn.twoPi
      (Env.runActions (Env.resetE cfg seed).1 acts).vehicle.theta := by
  have hcfg : (Env.resetE cfg seed).1.config = cfg := rfl
  have h0 : HeadingCanonical (Env.resetE cfg seed).1.config.dyn.twoPi
      (Env.resetE cfg seed).1.vehicle.theta := by
    show HeadingCanonical cfg.dyn.twoPi (wrapAngle cfg.dyn.twoPi cfg.startTheta)
    exact wrapAngle_bounds _ _ hp
  have h := runActions_heading acts (Env.resetE cfg seed).1
    (by rw [hcfg]; exact hp) h0
  rw [hcfg] at h
  exact h

/-- Witness for the heading invariant at a concrete configuration and a
one-action episode. -/
theorem heading_canonical_witness :
    HeadingCanonical sampleCfg.dyn.twoPi
      (Env.runActions (Env.resetE sampleCfg 0).1 [(1, 1)]).vehicle.theta :=
  heading_canonical sampleCfg 0 [(1, 1)]
    (by norm_num [sampleCfg, sampleDyn]) (by norm_num [sampleCfg])

/-- C5: in an episode step that triggers no terminal condition, step
succeeds with terminated false, and truncated is true exactly when the
(post-increment) step counter exceeds the configured step budget — and
hence false at every earlier step. -/
theorem truncation_at_budget (env : Env) (a : ℚ × ℚ)
    (hrun : env.phase = Phase.RUNNING)
    (hterm : terminalCondition env.config
      (Env.postVehicle env (Env.cmds env a)) = false) :
    ∃ e res, Env.step env a = Except.ok (e, res) ∧
      res.terminated = false ∧
      (res.truncated = true ↔ env.config.maxSteps < env.stepCount + 1) := by
  refine ⟨Env.postEnv env (Env.cmds env a), Env.stepRes env (Env.cmds env a),
    ?_, ?_, ?_⟩
  · unfold Env.step Env.stepWith
    rw [if_pos hrun]
  · show Env.postTerminated env (Env.cmds env a) = false
    exact hterm
  · show Env.postTruncated env (Env.cmds env a) = true ↔ _
    unfold Env.postTruncated
    rw [show Env.postTerminated env (Env.cmds env a) = false from hterm]
    simp

/-- Witness for the truncation theorem: a concrete non-terminal step of the
sample environment. -/
theorem truncation_at_budget_witness :
    ∃ e res, Env.step sampleEnv (0, 0) = Except.ok (e, res) ∧
      res.terminated = false ∧
      (res.truncated = true ↔
        sampleEnv.config.maxSteps < sampleEnv.stepCount + 1) :=
  truncation_at_budget sampleEnv (0, 0) rfl
    (by norm_num [sampleEnv, Env.resetE, sampleCfg, sampleDyn, sampleEst,
      Env.cmds, clampAction, clampQ, Env.postVehicle,
      DynamicsIntegrator.stepCore, terminalCondition, collided, outOfBounds,
      goalReached, distSq, wrapAngle])

end DriftGym

namespace DriftGym

theorem cmds_clampAction (env : Env) (a : ℚ × ℚ)
    (h1 : 0 ≤ env.config.dyn.maxVel) (h2 : 0 ≤ env.config.dyn.maxAngVel) :
    Env.cmds env (clampAction env.config a) = Env.cmds env a := by
  show clampAction env.config (clampAction env.config a) = clampAction env.config a
  show (clampQ (-env.config.dyn.maxVel) env.config.dyn.maxVel
          (clampQ (-env.config.dyn.maxVel) env.config.dyn.maxVel a.1),
        clampQ (-env.config.dyn.maxAngVel) env.config.dyn.maxAngVel
          (clampQ (-env.config.dyn.maxAngVel) env.config.dyn.maxAngVel a.2)) = _
  rw [clampQ_idem _ _ _ (by linarith), clampQ_idem _ _ _ (by linarith)]
  rfl

/-- C6: an action whose components lie outside the declared bounds is
clamped, not rejected: stepping a RUNNING environment never raises, its
result is identical to stepping with the clamped action, and the
angular-velocity command in particular lands on its clamped value. -/
theorem action_clamped_not_rejected (env : Env) (a : ℚ × ℚ)
    (h1 : 0 ≤ env.config.dyn.maxVel) (h2 : 0 ≤ env.config.dyn.maxAngVel)
    (hrun : env.phase = Phase.RUNNING) :
    Env.step env a = Env.step env (clampAction env.config a)
    ∧ Env.step env a =
        Except.ok (Env.postEnv env (Env.cmds env a),
          Env.stepRes env (Env.cmds env a))
    ∧ (Env.postVehicle env (Env.cmds env a)).angular_velocity =
        clampQ (-env.config.dyn.maxAngVel) env.config.dyn.maxAngVel a.2 := by
  refine ⟨?_, ?_, rfl⟩
  · unfold Env.step
    rw [cmds_clampAction env a h1 h2]
  · unfold Env.step Env.stepWith
    rw [if_pos hrun]

/-- Witness for the clamping theorem: a concrete out-of-bounds action on the
sample environment steps exactly like its clamped version. -/
theorem action_clamped_witness :
    Env.step sampleEnv (100, -7) =
      Env.step sampleEnv (clampAction sampleEnv.config (100, -7)) :=
  (action_clamped_not_rejected sampleEnv (100, -7)
    (show (0:ℚ) ≤ 4 by norm_num) (show (0:ℚ) ≤ 3 by norm_num) rfl).1

/-- C7: calling step on an environment that is not RUNNING (before the first
reset, or after a terminal or truncating step) fails with
`InvalidTransitionError`. -/
theorem step_requires_running (env : Env) (a : ℚ × ℚ)
    (h : env.phase ≠ Phase.RUNNING) :
    Env.step env a = Except.error SimError.invalidTransition := by
  unfold Env.step Env.stepWith
  rw [if_neg h]

/-- Witness for the invalid-transition theorem: stepping a freshly
constructed, never-reset environment fails. -/
theorem step_requires_running_witness :
    Env.step (Env.make sampleCfg) (0, 0) =
      Except.error SimError.invalidTransition :=
  step_requires_running (Env.make sampleCfg) (0, 0) (by decide)

/-- C8: for finite inputs, the dynamics reset sets the pose exactly with all
velocities zero; if any input is non-finite it fails with
`InvalidStateError`. -/
theorem dyn_reset_spec :
    (∀ xq yq tq : ℚ,
        DynamicsIntegrator.reset (PyFloat.fin xq) (PyFloat.fin yq)
            (PyFloat.fin tq) =
          Except.ok { x := xq, y := yq, theta := tq,
                      velocity := 0, angular_velocity := 0 })
    ∧ (∀ x y t : PyFloat,
        (x.isFinite = false ∨ y.isFinite = false ∨ t.isFinite = false) →
        DynamicsIntegrator.reset x y t = Except.error SimError.invalidState) := by
  constructor
  · intro xq yq tq
    rfl
  · intro x y t h
    cases x <;> cases y <;> cases t <;>
      simp_all [PyFloat.isFinite, DynamicsIntegrator.reset]

/-- Witness for the reset theorem: a NaN x-coordinate is rejected. -/
theorem dyn_reset_spec_witness :
    DynamicsIntegrator.reset PyFloat.nan (PyFloat.fin 0) (PyFloat.fin 0) =
      Except.error SimError.invalidState :=
  dyn_reset_spec.2 PyFloat.nan (PyFloat.fin 0) (PyFloat.fin 0) (Or.inl rfl)

/-- C9: a failed step leaves the caller-owned vehicle state either fully
updated or fully unchanged — never half-applied; in this embedding every
failing step leaves it unchanged. -/
theorem step_failure_atomic (env : Env) (a : ℚ × ℚ) (err : SimError)
    (h : (Env.stepMut env a).2 = Except.error err) :
    (Env.stepMut env a).1.vehicle = env.vehicle ∨
    (Env.stepMut env a).1.vehicle =
      DynamicsIntegrator.step env.config.dyn env.vehicle a.1 a.2 := by
  by_cases hp : env.phase = Phase.RUNNING
  · rw [stepMut_eq, if_pos hp] at h
    simp at h
  · left
    rw [stepMut_eq, if_neg hp]

/-- Witness for the atomicity theorem: the failing step on a never-reset
environment leaves the vehicle state untouched. -/
theorem step_failure_atomic_witness :
    (Env.stepMut (Env.make sampleCfg) (1, 1)).1.vehicle =
        (Env.make sampleCfg).vehicle ∨
    (Env.stepMut (Env.make sampleCfg) (1, 1)).1.vehicle =
      DynamicsIntegrator.step (Env.make sampleCfg).config.dyn
        (Env.make sampleCfg).vehicle 1 1 :=
  step_failure_atomic (Env.make sampleCfg) (1, 1) SimError.invalidTransition rfl

/-- C10: `test_installation.main` returns exit code 0 exactly when
`test_imports`, `test_environment_creation` and `test_standalone_dynamics`
all return True and 1 otherwise, and the latter two functions turn every
exception raised inside their guarded bodies into a False return value
rather than propagating it. -/
theorem install_main_spec :
    (∀ w : TestInstallation.InstallWorld,
        (TestInstallation.main w = 0 ↔
          (TestInstallation.test_imports w = true ∧
           TestInstallation.test_environment_creation w = true ∧
           TestInstallation.test_standalone_dynamics w = true))
        ∧ (TestInstallation.main w = 0 ∨ TestInstallation.main w = 1))
    ∧ (∀ (w : TestInstallation.InstallWorld) (e : TestInstallation.PyExc),
        TestInstallation.test_environment_creation
          { w with envCreationBody := Except.error e } = false)
    ∧ (∀ (w : TestInstallation.InstallWorld) (e : TestInstallation.PyExc),
        TestInstallation.test_standalone_dynamics
          { w with standaloneBody := Except.error e } = false) := by
  refine ⟨?_, fun w e => rfl, fun w e => rfl⟩
  intro w
  obtain ⟨n, g, d, ei, si, eb, sb⟩ := w
  cases n <;> cases g <;> cases d <;> cases ei <;> cases si <;>
    cases eb <;> cases sb <;>
    simp [TestInstallation.main, TestInstallation.test_imports,
      TestInstallation.test_environment_creation,
      TestInstallation.test_standalone_dynamics]

end DriftGym
